import Mathlib

/-!
Shallow embedding of `geopandas_view/view.py` (function `view` and its helpers
`_simple`, `_choropleth`, `_tooltip_popup`) together with the data model the
claims need.  Pandas/GeoPandas frames are modelled as ordered column lists over
an abstract cell type; the Python objects `df` and `gdf` live in an explicit
heap so that the copy at the top of `view` (line 192, `gdf = df.copy()`) is
load-bearing for the no-mutation claim.  External collaborators (matplotlib
colormap lookup, the mapclassify classifier, the folium key join) are modelled
from the specification's description of their contracts; each such definition
carries a doc comment saying so.
-/

/-- A scalar attribute value: a number or a string. -/
inductive Val
  | num (q : ℚ)
  | str (s : String)
deriving DecidableEq

/-- One cell of an attribute column; `none` is a missing value (NaN). -/
abbrev Cell := Option Val

/-- Pandas dtype of a column, as far as `view` inspects it (lines 236-239):
`is_categorical_dtype`, the object dtype, or plain numeric. -/
inductive Dtype
  | numeric
  | objectD
  | categoricalD
deriving DecidableEq

/-- An attribute column: its name, dtype and cells. -/
structure Col where
  name : String
  dtype : Dtype
  cells : List Cell
deriving DecidableEq

/-- A geometry, abstracted to an identifier that records whether the row has
been reprojected by `to_crs` (line 198). -/
inductive Geom
  | raw (id : ℕ)
  | projected (id : ℕ)
deriving DecidableEq

/-- A GeoDataFrame: attribute columns in dataframe order (geometry excluded;
new columns are appended at the end, which matches the order pandas reports
after `columns.drop(geometry)`), the geometry column name, the geometries and
the coordinate reference system (EPSG code, `none` for naive geometry). -/
structure GeoDataFrame where
  cols : List Col
  geomName : String
  geoms : List Geom
  crs : Option ℕ
deriving DecidableEq

instance : Inhabited GeoDataFrame := ⟨⟨[], "geometry", [], none⟩⟩

/-- `gdf.shape[0]`: the number of rows. -/
def nRows (g : GeoDataFrame) : ℕ := g.geoms.length

/-- `gdf.columns.drop(gdf.geometry.name).to_list()`: the attribute column
names, in dataframe order (line 530). -/
def nonGeomColumns (g : GeoDataFrame) : List String := g.cols.map Col.name

/-- Look up an attribute column by name. -/
def findCol (g : GeoDataFrame) (n : String) : Option Col :=
  g.cols.find? (fun c => c.name = n)

/-- `gdf[n]`: the cells of column `n` (the default is never reached in the
paths the theorems take; a missing name raises KeyError in the source, which
the callers model explicitly). -/
def getCells (g : GeoDataFrame) (n : String) : List Cell :=
  ((findCol g n).map Col.cells).getD []

/-- Pandas dtype inference for an assigned vector: all-numeric (with possible
missing values) is numeric, anything containing a string is object. -/
def inferDtype (cells : List Cell) : Dtype :=
  if cells.all (fun c => match c with | some (Val.str _) => false | _ => true) then
    Dtype.numeric
  else Dtype.objectD

/-- `gdf[n] = cells`: replace the column if it exists, otherwise append it at
the end (pandas appends new columns after all existing ones). -/
def setCol (g : GeoDataFrame) (n : String) (cells : List Cell) : GeoDataFrame :=
  if g.cols.any (fun c => c.name = n) then
    { g with cols := g.cols.map (fun c => if c.name = n then ⟨n, inferDtype cells, cells⟩ else c) }
  else
    { g with cols := g.cols ++ [⟨n, inferDtype cells, cells⟩] }

/-- Reproject one geometry. -/
def projectGeom : Geom → Geom
  | Geom.raw i => Geom.projected i
  | Geom.projected i => Geom.projected i

/-- `gdf.to_crs(c)`: returns a new frame with every geometry reprojected;
attribute columns are untouched (line 198). -/
def toCrs (g : GeoDataFrame) (c : ℕ) : GeoDataFrame :=
  { g with geoms := g.geoms.map projectGeom, crs := some c }

/-- The Python object heap: frames are heap cells, variables hold references.
`df.copy()` allocates a fresh cell; `gdf[...] = ...` writes through the
reference held by `gdf`. -/
structure Heap where
  frames : List GeoDataFrame
deriving DecidableEq

/-- Dereference. -/
def Heap.get (h : Heap) (r : ℕ) : GeoDataFrame := h.frames.getD r default

/-- In-place update of the object at `r`. -/
def Heap.set (h : Heap) (r : ℕ) (g : GeoDataFrame) : Heap := ⟨h.frames.set r g⟩

/-- Allocate a fresh object, returning the new heap and its reference. -/
def Heap.alloc (h : Heap) (g : GeoDataFrame) : Heap × ℕ :=
  (⟨h.frames ++ [g]⟩, h.frames.length)

/-- The `column` argument: a column name (str) or an externally supplied value
vector (np.array / pd.Series), line 227. -/
inductive ColumnArg
  | name (s : String)
  | vector (cells : List Cell)
deriving DecidableEq

/-- The `cmap` argument: a named colormap or an explicit list of colors. -/
inductive CmapArg
  | named (s : String)
  | clist (cs : List String)
deriving DecidableEq

/-- The `color` argument of `_simple`: a single named color or a list of
colors per row. -/
inductive ColorArg
  | single (s : String)
  | colorList (cs : List String)
deriving DecidableEq

/-- The `tooltip` / `popup` argument: bool, int, str or list (line 101). -/
inductive FieldsArg
  | boolArg (b : Bool)
  | intArg (n : ℤ)
  | strArg (s : String)
  | listArg (l : List String)
deriving DecidableEq

/-- The errors `view` can raise on the modelled paths. -/
inductive ViewError
  | rowCountMismatch
  | keyError
  | invalidCmap
  | indexError
deriving DecidableEq

/-- Modelled from the spec: the built-in table of recognized named palettes
(`plt.colormaps()` of the external plotting library); the exact contents do
not matter to any claim beyond containing the default `"tab20"`. -/
def pltColormaps : List String :=
  ["viridis", "tab10", "tab20", "Set1", "Set2", "Set3", "Pastel1", "Pastel2", "PuRd"]

/-- Lexicographic order on code-point lists (the order pandas sorts string
categories by). -/
def lexLE : List ℕ → List ℕ → Bool
  | [], _ => true
  | _ :: _, [] => false
  | x :: xs, y :: ys => if x < y then true else if y < x then false else lexLE xs ys

/-- Lexicographic order on strings by Unicode code point. -/
def strLE (a b : String) : Bool := lexLE (a.data.map Char.toNat) (b.data.map Char.toNat)

/-- A total order used by the categorical constructor: numbers before strings,
numbers by value, strings lexicographically. -/
def valLE : Val → Val → Bool
  | Val.num a, Val.num b => a ≤ b
  | Val.num _, Val.str _ => true
  | Val.str _, Val.num _ => false
  | Val.str a, Val.str b => strLE a b

/-- Insert into a sorted list. -/
def insertVal (v : Val) : List Val → List Val
  | [] => [v]
  | w :: ws => if valLE v w then v :: w :: ws else w :: insertVal v ws

/-- Insertion sort by `valLE`. -/
def sortVals : List Val → List Val
  | [] => []
  | v :: vs => insertVal v (sortVals vs)

/-- Distinct values, first occurrence kept. -/
def distinctVals (l : List Val) : List Val :=
  l.foldl (fun acc v => if acc.contains v then acc else acc ++ [v]) []

/-- Index of a value in a category list. -/
def idxOfVal : List Val → Val → ℕ
  | [], _ => 0
  | c :: cs, v => if c = v then 0 else idxOfVal cs v + 1

/-- Result of `pd.Categorical`: the ordered category set and per-row codes. -/
structure Categorical where
  categories : List Val
  codes : List ℤ
deriving DecidableEq

/-- `pd.Categorical(values)` (line 242): categories are the sorted distinct
non-missing values; each row's code is its category index, `-1` for missing. -/
def pdCategorical (cells : List Cell) : Categorical :=
  let cats := sortVals (distinctVals (cells.filterMap id))
  ⟨cats, cells.map (fun c => match c with
    | none => (-1 : ℤ)
    | some v => (idxOfVal cats v : ℤ))⟩

/-- Modelled from the spec: the LUT index the external colormap engine uses
for an integer code — codes below zero select the under color (index 0 by
default), codes at or above `N` the over color (index `N - 1`). -/
def lutIndex (N : ℕ) (code : ℤ) : ℕ :=
  if code < 0 then 0 else min code.toNat (N - 1)

/-- Modelled from the spec: sampling a named continuous palette engine at an
integer code; the color is represented symbolically by palette name, sample
count, and LUT index (no claim depends on concrete hex values). -/
def lutColor (nm : String) (N : ℕ) (code : ℤ) : String :=
  nm ++ ":" ++ toString N ++ ":" ++ toString (lutIndex N code)

/-- `np.take(l, i)`: python-style indexing, negative indices count from the
end, out-of-range indices raise (here: `none`). -/
def npTakeStr (l : List String) (i : ℤ) : Option String :=
  if 0 ≤ i then l[i.toNat]?
  else if (-i).toNat ≤ l.length then l[l.length - (-i).toNat]? else none

/-- `np.take(l, idx)` on a whole index vector; any out-of-range entry raises. -/
def npTakeList (l : List String) (idx : List ℤ) : Except ViewError (List String) :=
  if idx.all (fun i => (npTakeStr l i).isSome) then
    Except.ok (idx.map (fun i => (npTakeStr l i).getD ""))
  else Except.error ViewError.indexError

/-- `cmap = cmap * (N // len(cmap) + 1)` (line 259): tile an explicit color
list until it covers all `N` categories.  (An empty list never reaches this
point in the source: the falsy-default at line 244 already replaced it with
the default named palette.) -/
def tiledCmap (cs : List String) (N : ℕ) : List String :=
  if N > cs.length then (List.replicate (N / cs.length + 1) cs).flatten else cs

/-- The colors the categorical branch computes (lines 241-267). -/
structure CatResolved where
  categories : List Val
  rowColors : List String
  legendColors : List String
deriving DecidableEq

/-- Line 244, `cmap = cmap if cmap else "tab20"`: Python falsiness — `None`,
the empty string and the empty list all fall back to the default palette. -/
def resolvedCmap (cmap0 : Option CmapArg) : CmapArg :=
  match cmap0 with
  | none => CmapArg.named "tab20"
  | some (CmapArg.named s) =>
      if s = "" then CmapArg.named "tab20" else CmapArg.named s
  | some (CmapArg.clist cs) =>
      if cs = [] then CmapArg.named "tab20" else CmapArg.clist cs

/-- Lines 241-267 of `view`: build per-row colors and per-category legend
colors from `pd.Categorical(gdf[column])` and the `cmap` argument (any falsy
cmap — `None`, `""`, `[]` — falls back to `"tab20"`, line 244); a cmap that
is neither a recognized named colormap nor list-like raises the invalid-cmap
ValueError. -/
def categoricalResolve (cells : List Cell) (cmap0 : Option CmapArg) :
    Except ViewError CatResolved :=
  let cat := pdCategorical cells
  let N := cat.categories.length
  match resolvedCmap cmap0 with
  | CmapArg.named s =>
      if pltColormaps.contains s then
        Except.ok ⟨cat.categories,
          cat.codes.map (fun c => lutColor s N c),
          (List.range N).map (fun i => lutColor s N (Int.ofNat i))⟩
      else
        Except.error ViewError.invalidCmap
  | CmapArg.clist cs =>
      let tiled := tiledCmap cs N
      match npTakeList tiled cat.codes with
      | Except.error e => Except.error e
      | Except.ok rowColors =>
          match npTakeList tiled ((List.range N).map Int.ofNat) with
          | Except.error e => Except.error e
          | Except.ok legendColors => Except.ok ⟨cat.categories, rowColors, legendColors⟩

/-- Python list slicing `l[:n]` with a possibly negative bound. -/
def pySliceTo (n : ℤ) (l : List String) : List String :=
  if 0 ≤ n then l.take n.toNat else l.take (l.length - (-n).toNat)

/-- The synthetic-name removal at the end of `_tooltip_popup` (lines 536-539):
`list.remove` drops the first occurrence, guarded by membership. -/
def tooltipPost (l : List String) : List String :=
  (l.erase "__folium_key").erase "__plottable_column"

/-- `_tooltip_popup` (lines 523-546), up to the folium wrapper: resolve the
`tooltip`/`popup` argument to a field list, or `None` for `False`/`0`. -/
def tooltipPopupFields (fields : FieldsArg) (g : GeoDataFrame) : Option (List String) :=
  match fields with
  | FieldsArg.boolArg false => none
  | FieldsArg.boolArg true => some (tooltipPost (nonGeomColumns g))
  | FieldsArg.intArg n =>
      if n = 0 then none else some (tooltipPost (pySliceTo n (nonGeomColumns g)))
  | FieldsArg.strArg s => some (tooltipPost [s])
  | FieldsArg.listArg l => some (tooltipPost l)

/-- The numeric values of a column's non-missing cells. -/
def cellNums (cells : List Cell) : List ℚ :=
  cells.filterMap (fun c => match c with | some (Val.num q) => some q | _ => none)

/-- `gdf[column].min()`: minimum of the non-missing numeric values (`none`
when there are none; pandas would give NaN). -/
def colMin (cells : List Cell) : Option ℚ := (cellNums cells).min?

/-- Lines 497-501 of `_choropleth`: invoke the external classifier on the raw
column values (missing values included, as `np.asarray` keeps them) and
prepend the observed column minimum to its `k` bin edges. -/
def choroplethBins (classify : List Cell → String → ℕ → List ℚ)
    (cells : List Cell) (scheme : String) (k : ℕ) : List ℚ :=
  (colMin cells).getD 0 :: classify cells scheme k

/-- The `bins` handed to folium.Choropleth: a class count (no scheme) or
explicit edges (line 500-510). -/
inductive BinsSpec
  | count (k : ℕ)
  | edgeList (es : List ℚ)
deriving DecidableEq

/-- Lines 226-239 of `view`: resolve the `column` argument against the working
copy.  A vector whose length differs from the row count raises the
row-count-mismatch ValueError; a matching vector is stored as the synthetic
attribute `"__plottable_column"`; a name must exist (else KeyError) and a
categorical or object dtype promotes `categorical` to true (the vector branch
skips that promotion — it is an `elif`). -/
def resolveColumn (g : GeoDataFrame) (col : Option ColumnArg) (cat0 : Bool) :
    Except ViewError (GeoDataFrame × Option String × Bool) :=
  match col with
  | none => Except.ok (g, none, cat0)
  | some (ColumnArg.vector v) =>
      if v.length ≠ nRows g then Except.error ViewError.rowCountMismatch
      else Except.ok (setCol g "__plottable_column" v, some "__plottable_column", cat0)
  | some (ColumnArg.name s) =>
      match findCol g s with
      | none => Except.error ViewError.keyError
      | some c =>
          match c.dtype with
          | Dtype.categoricalD => Except.ok (g, some s, true)
          | Dtype.objectD => Except.ok (g, some s, true)
          | Dtype.numeric => Except.ok (g, some s, cat0)

/-- The categorical flag after column resolution (the value the mode decision
at line 269 sees); on an error the resolution never completes and the flag is
moot, so the incoming flag is returned. -/
def resolveColumnFlag (g : GeoDataFrame) (col : Option ColumnArg) (cat0 : Bool) : Bool :=
  match resolveColumn g col cat0 with
  | Except.ok (_, _, b) => b
  | Except.error _ => cat0

/-- `color in gdf.columns` (line 377): membership in the full column index,
geometry included. -/
def dfContainsColumn (g : GeoDataFrame) (s : String) : Bool :=
  s == g.geomName || (nonGeomColumns g).contains s

/-- The layer the scene assembler receives: a plain GeoJson layer
(`_simple`) or a Choropleth layer (`_choropleth`). -/
inductive Layer
  | geojson (tooltipFields popupFields : Option (List String)) (styleColumn : Option String)
  | choroLayer (keyCells dataCells : List Cell) (bins : BinsSpec) (fillColor : Option CmapArg)
      (colName : String) (tooltipFields popupFields : Option (List String))
deriving DecidableEq

/-- `_simple` (lines 309-413), GeoDataFrame branch: resolve tooltip/popup
fields, then either style from an existing column (a single color naming a
column) or write the colors into the synthetic `"__folium_color"` column of
the working copy. -/
def simpleRun (g : GeoDataFrame) (color : Option ColorArg) (tooltip popup : FieldsArg) :
    GeoDataFrame × Layer :=
  let tf := tooltipPopupFields tooltip g
  let pf := tooltipPopupFields popup g
  match color with
  | none => (g, Layer.geojson tf pf none)
  | some (ColorArg.single s) =>
      if dfContainsColumn g s then (g, Layer.geojson tf pf (some s))
      else
        (setCol g "__folium_color" (List.replicate (nRows g) (some (Val.str s))),
         Layer.geojson tf pf (some "__folium_color"))
  | some (ColorArg.colorList cs) =>
      (setCol g "__folium_color" (cs.map (fun c => some (Val.str c))),
       Layer.geojson tf pf (some "__folium_color"))

/-- `_choropleth` (lines 416-520): add the synthetic `"__folium_key"` column
holding `0..n-1` in row order, compute the bins (scheme: classifier edges with
the column minimum prepended, no scheme: the class count), and assemble the
Choropleth layer keyed on `"__folium_key"`. -/
def choroRun (classify : List Cell → String → ℕ → List ℚ) (g0 : GeoDataFrame)
    (colName : String) (cmapA : Option CmapArg) (k : ℕ) (scheme : Option String)
    (tooltip popup : FieldsArg) : GeoDataFrame × Layer :=
  let g := setCol g0 "__folium_key"
    ((List.range (nRows g0)).map (fun i : ℕ => some (Val.num (i : ℚ))))
  let bins : BinsSpec :=
    match scheme with
    | none => BinsSpec.count k
    | some sch => BinsSpec.edgeList (choroplethBins classify (getCells g colName) sch k)
  (g, Layer.choroLayer (getCells g "__folium_key") (getCells g colName) bins cmapA colName
      (if tooltip = FieldsArg.boolArg false then none else tooltipPopupFields tooltip g)
      (if popup = FieldsArg.boolArg false then none else tooltipPopupFields popup g))

/-- Observable side effects of a `view` call, in program order.  `warn` is in
the vocabulary because the spec and the repository's tests speak of warnings;
the source never emits one. -/
inductive Effect
  | reprojectGeoms
  | createMap
  | categorizeColumn
  | renderLayer
  | fitBoundsEffect
  | addLegend
  | warn
deriving DecidableEq

/-- What a completed `view` call hands back, as far as the claims observe it:
the assembled layer, the categorical legend entry (title, categories, colors)
if one was appended, the final working frame, and the map canvas settings. -/
structure ViewOutput where
  layer : Layer
  legendEntry : Option (String × List Val × List String)
  gdfFinal : GeoDataFrame
  tilesUsed : Option String
  mapCrs : String
deriving DecidableEq

instance {ε α : Type} [DecidableEq ε] [DecidableEq α] : DecidableEq (Except ε α) := fun a b =>
  match a, b with
  | Except.error x, Except.error y =>
      if h : x = y then Decidable.isTrue (by rw [h])
      else Decidable.isFalse (fun hc => h (by cases hc; rfl))
  | Except.ok x, Except.ok y =>
      if h : x = y then Decidable.isTrue (by rw [h])
      else Decidable.isFalse (fun hc => h (by cases hc; rfl))
  | Except.error _, Except.ok _ => Decidable.isFalse (fun hc => by cases hc)
  | Except.ok _, Except.error _ => Decidable.isFalse (fun hc => by cases hc)

/-- The state a `view` call ends in: the heap, the effect trace, and either
the output or the raised error. -/
structure ViewRes where
  heap : Heap
  trace : List Effect
  result : Except ViewError ViewOutput
deriving DecidableEq

/-- The arguments of `view` the model covers.  `vmin` and `vmax` are accepted
but never read anywhere below — faithful to the source, whose docstring marks
them "TODO: not implemented yet" and whose body never mentions them. -/
structure ViewArgs where
  column : Option ColumnArg := none
  cmap : Option CmapArg := none
  color : Option ColorArg := none
  tiles : Option String := some "OpenStreetMap"
  tooltip : FieldsArg := FieldsArg.boolArg false
  popup : FieldsArg := FieldsArg.boolArg false
  categorical : Bool := false
  legend : Bool := false
  scheme : Option String := none
  k : ℕ := 5
  vmin : Option ℚ := none
  vmax : Option ℚ := none
  crsArg : String := "EPSG3857"
deriving DecidableEq

/-- Result of the copy/reproject prologue of `view` (lines 192-198). -/
structure Stage1Res where
  heap : Heap
  rg : ℕ
  tilesUsed : Option String
  mapCrs : String
  trace : List Effect
deriving DecidableEq

/-- Lines 192-198 of `view`: `gdf = df.copy()` allocates the working copy;
naive geometry switches tiles off and the canvas to the "Simple" crs; a crs
other than 4326 rebinds `gdf` to the freshly reprojected frame. -/
def stage1 (h0 : Heap) (rdf : ℕ) (tilesArg : Option String) (crsArg : String) : Stage1Res :=
  let g0 := h0.get rdf
  match g0.crs with
  | none => ⟨⟨h0.frames ++ [g0]⟩, h0.frames.length, none, "Simple", []⟩
  | some c =>
      if c = 4326 then ⟨⟨h0.frames ++ [g0]⟩, h0.frames.length, tilesArg, crsArg, []⟩
      else
        ⟨⟨h0.frames ++ [g0, toCrs g0 4326]⟩, h0.frames.length + 1, tilesArg, crsArg,
          [Effect.reprojectGeoms]⟩

/-- The pure value the prologue leaves in the working frame. -/
def crsAdjust (g : GeoDataFrame) : GeoDataFrame :=
  match g.crs with
  | none => g
  | some c => if c = 4326 then g else toCrs g 4326

/-- Trace, result and final working frame of everything in `view` after
column resolution succeeded (lines 241-306): the categorical branch (category
extraction, palette resolution, `_simple` with the computed colors, bounds
fitting, and the legend when `legend` is truthy), or `_simple` with the plain
`color` argument, or `_choropleth`. -/
def stage2Post (classify : List Cell → String → ℕ → List ℚ)
    (res : GeoDataFrame × Option String × Bool) (tiles1 : Option String) (mapCrs : String)
    (tr0 : List Effect) (cmapA : Option CmapArg) (colorA : Option ColorArg)
    (tooltip popup : FieldsArg) (legendB : Bool) (scheme : Option String) (k : ℕ) :
    List Effect × Except ViewError ViewOutput × GeoDataFrame :=
  let g2 := res.1
  let colOpt := res.2.1
  let cat1 := res.2.2
  if cat1 then
    match colOpt with
    | none => (tr0, Except.error ViewError.keyError, g2)
    | some colName =>
        match categoricalResolve (getCells g2 colName) cmapA with
        | Except.error e => (tr0 ++ [Effect.categorizeColumn], Except.error e, g2)
        | Except.ok cr =>
            let sr := simpleRun g2 (some (ColorArg.colorList cr.rowColors)) tooltip popup
            (tr0 ++ [Effect.categorizeColumn, Effect.renderLayer, Effect.fitBoundsEffect]
                 ++ (if legendB then [Effect.addLegend] else []),
             Except.ok ⟨sr.2,
               (if legendB then some (colName, cr.categories, cr.legendColors) else none),
               sr.1, tiles1, mapCrs⟩,
             sr.1)
  else
    match colOpt with
    | none =>
        let sr := simpleRun g2 colorA tooltip popup
        (tr0 ++ [Effect.renderLayer, Effect.fitBoundsEffect],
         Except.ok ⟨sr.2, none, sr.1, tiles1, mapCrs⟩, sr.1)
    | some colName =>
        let cres := choroRun classify g2 colName cmapA k scheme tooltip popup
        (tr0 ++ [Effect.renderLayer, Effect.fitBoundsEffect],
         Except.ok ⟨cres.2, none, cres.1, tiles1, mapCrs⟩, cres.1)

/-- Lines 226-306 of `view` on the working frame: column resolution followed
by `stage2Post`; an error there aborts the call. -/
def stage2Core (classify : List Cell → String → ℕ → List ℚ) (g1 : GeoDataFrame)
    (tiles1 : Option String) (mapCrs : String) (tr0 : List Effect)
    (column : Option ColumnArg) (cmapA : Option CmapArg) (colorA : Option ColorArg)
    (tooltip popup : FieldsArg) (cat0 : Bool) (legendB : Bool)
    (scheme : Option String) (k : ℕ) :
    List Effect × Except ViewError ViewOutput × GeoDataFrame :=
  match resolveColumn g1 column cat0 with
  | Except.error e => (tr0, Except.error e, g1)
  | Except.ok t => stage2Post classify t tiles1 mapCrs tr0 cmapA colorA tooltip popup legendB scheme k

/-- The whole of `view` (lines 192-306) on an explicit heap: prologue, map
canvas creation, then `stage2Core`; all in-place column writes the source
performs on `gdf` land in the single write-back of the final working frame
(they all target the same object, so the heap ends identical). -/
def runView (classify : List Cell → String → ℕ → List ℚ) (h0 : Heap) (rdf : ℕ)
    (args : ViewArgs) : ViewRes :=
  let s := stage1 h0 rdf args.tiles args.crsArg
  let core := stage2Core classify (s.heap.get s.rg) s.tilesUsed s.mapCrs
      (s.trace ++ [Effect.createMap]) args.column args.cmap args.color
      args.tooltip args.popup args.categorical args.legend args.scheme args.k
  ⟨s.heap.set s.rg core.2.2, core.1, core.2.1⟩

/-- `view(df, ...)`: run on a one-object heap holding the caller's frame. -/
def view (classify : List Cell → String → ℕ → List ℚ) (df : GeoDataFrame)
    (args : ViewArgs) : ViewRes :=
  runView classify ⟨[df]⟩ 0 args

/-- The categorical flag the mode decision resolves to, as a function of the
caller's frame and arguments (the prologue does not change columns, so the
flag can be read off the input frame). -/
def resolvedCategoricalFlag (df : GeoDataFrame) (args : ViewArgs) : Bool :=
  resolveColumnFlag df args.column args.categorical

/-- Modelled from the spec: the scene assembler joins each feature to the data
rows whose key column equals the feature's key property
(`key_on="feature.properties.__folium_key"`, lines 506-507). -/
def joinKey (keys vals : List Cell) (q : ℚ) : List Cell :=
  ((keys.zip vals).filter (fun p => p.1 == some (Val.num q))).map Prod.snd

/-! ### Basic frame lemmas -/

theorem nRows_toCrs (g : GeoDataFrame) (c : ℕ) : nRows (toCrs g c) = nRows g := by
  simp [nRows, toCrs]

theorem cols_toCrs (g : GeoDataFrame) (c : ℕ) : (toCrs g c).cols = g.cols := rfl

theorem crs_setCol (g : GeoDataFrame) (n : String) (v : List Cell) :
    (setCol g n v).crs = g.crs := by
  unfold setCol; split <;> rfl

theorem geoms_setCol (g : GeoDataFrame) (n : String) (v : List Cell) :
    (setCol g n v).geoms = g.geoms := by
  unfold setCol; split <;> rfl

theorem nRows_setCol (g : GeoDataFrame) (n : String) (v : List Cell) :
    nRows (setCol g n v) = nRows g := by
  simp [nRows, geoms_setCol]

theorem findCol_map_replace (cs : List Col) (n : String) (v : List Cell)
    (h : cs.any (fun c => c.name = n) = true) :
    (cs.map (fun c => if c.name = n then ⟨n, inferDtype v, v⟩ else c)).find?
      (fun c => c.name = n) = some ⟨n, inferDtype v, v⟩ := by
  induction cs with
  | nil => simp at h
  | cons c cs ih =>
      by_cases hc : c.name = n
      · rw [List.map_cons, if_pos hc, List.find?_cons_of_pos _ (by simp)]
      · rw [List.map_cons, if_neg hc, List.find?_cons_of_neg _ (by simp [hc])]
        refine ih ?_
        rw [List.any_cons, Bool.or_eq_true] at h
        rcases h with h | h
        · exact absurd (by simpa using h) hc
        · exact h

theorem findCol_append_fresh (cs : List Col) (n : String) (v : List Cell)
    (h : cs.any (fun c => c.name = n) = false) :
    (cs ++ [(⟨n, inferDtype v, v⟩ : Col)]).find? (fun c => c.name = n)
      = some ⟨n, inferDtype v, v⟩ := by
  induction cs with
  | nil => simp [List.find?]
  | cons c cs ih =>
      rw [List.any_cons, Bool.or_eq_false_iff] at h
      rw [List.cons_append, List.find?_cons_of_neg _ (by simpa using h.1)]
      exact ih h.2

theorem findCol_setCol_self (g : GeoDataFrame) (n : String) (v : List Cell) :
    findCol (setCol g n v) n = some ⟨n, inferDtype v, v⟩ := by
  unfold findCol setCol
  by_cases h : g.cols.any (fun c => c.name = n)
  · simp only [h, if_true]
    exact findCol_map_replace g.cols n v h
  · simp only [Bool.not_eq_true] at h
    simp only [h, Bool.false_eq_true, if_false]
    exact findCol_append_fresh g.cols n v h

theorem getCells_setCol_self (g : GeoDataFrame) (n : String) (v : List Cell) :
    getCells (setCol g n v) n = v := by
  simp [getCells, findCol_setCol_self]

theorem findCol_setCol_other (g : GeoDataFrame) (n m : String) (v : List Cell)
    (hnm : m ≠ n) : findCol (setCol g n v) m = findCol g m := by
  have hmn : ¬ (n = m) := fun hh => hnm hh.symm
  unfold findCol setCol
  by_cases h : g.cols.any (fun c => c.name = n)
  · simp only [h, if_true]
    clear h
    induction g.cols with
    | nil => rfl
    | cons c cs ih =>
        by_cases hc : c.name = n
        · rw [List.map_cons, if_pos hc,
            List.find?_cons_of_neg _ (by simpa using hmn),
            List.find?_cons_of_neg _ (by simp [hc, hmn]), ih]
        · rw [List.map_cons, if_neg hc]
          by_cases hm : c.name = m
          · rw [List.find?_cons_of_pos _ (by simpa using hm),
              List.find?_cons_of_pos _ (by simpa using hm)]
          · rw [List.find?_cons_of_neg _ (by simpa using hm),
              List.find?_cons_of_neg _ (by simpa using hm), ih]
  · simp only [Bool.not_eq_true] at h
    simp only [h, Bool.false_eq_true, if_false]
    clear h
    induction g.cols with
    | nil => simp [List.find?, hmn]
    | cons c cs ih =>
        by_cases hm : c.name = m
        · rw [List.cons_append, List.find?_cons_of_pos _ (by simpa using hm),
            List.find?_cons_of_pos _ (by simpa using hm)]
        · rw [List.cons_append, List.find?_cons_of_neg _ (by simpa using hm),
            List.find?_cons_of_neg _ (by simpa using hm), ih]

theorem getCells_setCol_other (g : GeoDataFrame) (n m : String) (v : List Cell)
    (hnm : m ≠ n) : getCells (setCol g n v) m = getCells g m := by
  simp [getCells, findCol_setCol_other g n m v hnm]

theorem any_name_eq_false_iff (cs : List Col) (n : String) :
    cs.any (fun c => c.name = n) = false ↔ n ∉ cs.map Col.name := by
  induction cs with
  | nil => simp
  | cons c cs ih =>
      simp only [List.any_cons, Bool.or_eq_false_iff, decide_eq_false_iff_not,
        List.map_cons, List.mem_cons, not_or, ih]
      constructor
      · rintro ⟨h1, h2⟩; exact ⟨fun hh => h1 hh.symm, h2⟩
      · rintro ⟨h1, h2⟩; exact ⟨fun hh => h1 hh.symm, h2⟩

theorem nonGeomColumns_setCol_fresh (g : GeoDataFrame) (n : String) (v : List Cell)
    (h : n ∉ nonGeomColumns g) :
    nonGeomColumns (setCol g n v) = nonGeomColumns g ++ [n] := by
  unfold setCol
  rw [if_neg (by rw [Bool.not_eq_true, any_name_eq_false_iff]; exact h)]
  simp [nonGeomColumns]

/-! ### Heap lemmas -/

theorem listGetD_set_ne {α : Type} : ∀ (l : List α) (i r : ℕ) (a d : α), r ≠ i →
    (l.set i a).getD r d = l.getD r d := by
  intro l
  induction l with
  | nil => intro i r a d _; rfl
  | cons x t ih =>
      intro i r a d hne
      cases i with
      | zero =>
          cases r with
          | zero => exact absurd rfl hne
          | succ r => rfl
      | succ i =>
          cases r with
          | zero => rfl
          | succ r => exact ih i r a d (fun hh => hne (by rw [hh]))

theorem listGetD_append_lt {α : Type} : ∀ (l m : List α) (r : ℕ) (d : α),
    r < l.length → (l ++ m).getD r d = l.getD r d := by
  intro l
  induction l with
  | nil => intro m r d hr; simp at hr
  | cons x t ih =>
      intro m r d hr
      cases r with
      | zero => rfl
      | succ r => exact ih m r d (by simpa using hr)

theorem listGetD_append_len {α : Type} : ∀ (l : List α) (a d : α),
    (l ++ [a]).getD l.length d = a := by
  intro l
  induction l with
  | nil => intro a d; rfl
  | cons x t ih => intro a d; exact ih a d

theorem listGetD_append_len2 {α : Type} : ∀ (l : List α) (a b d : α),
    (l ++ [a, b]).getD (l.length + 1) d = b := by
  intro l
  induction l with
  | nil => intro a b d; rfl
  | cons x t ih => intro a b d; exact ih a b d

theorem Heap.get_set_ne (h : Heap) (i r : ℕ) (g : GeoDataFrame) (hne : r ≠ i) :
    (h.set i g).get r = h.get r :=
  listGetD_set_ne h.frames i r g default hne

/-! ### Stage-1 (prologue) lemmas -/

theorem stage1_get_rg (h0 : Heap) (rdf : ℕ) (t : Option String) (c : String) :
    (stage1 h0 rdf t c).heap.get (stage1 h0 rdf t c).rg = crsAdjust (h0.get rdf) := by
  unfold stage1 crsAdjust
  rcases hcrs : (h0.get rdf).crs with _ | cc
  · simp only [hcrs]
    exact listGetD_append_len _ _ _
  · simp only [hcrs]
    by_cases h4 : cc = 4326
    · simp only [h4, if_true]
      exact listGetD_append_len _ _ _
    · simp only [h4, if_false]
      exact listGetD_append_len2 _ _ _ _

theorem stage1_tiles (h0 : Heap) (rdf : ℕ) (t : Option String) (c : String) :
    (stage1 h0 rdf t c).tilesUsed
      = (match (h0.get rdf).crs with | none => none | some _ => t) := by
  unfold stage1
  rcases hcrs : (h0.get rdf).crs with _ | cc
  · simp only [hcrs]
  · simp only [hcrs]
    by_cases h4 : cc = 4326 <;> simp [h4]

theorem stage1_mapCrs (h0 : Heap) (rdf : ℕ) (t : Option String) (c : String) :
    (stage1 h0 rdf t c).mapCrs
      = (match (h0.get rdf).crs with | none => "Simple" | some _ => c) := by
  unfold stage1
  rcases hcrs : (h0.get rdf).crs with _ | cc
  · simp only [hcrs]
  · simp only [hcrs]
    by_cases h4 : cc = 4326 <;> simp [h4]

theorem stage1_trace (h0 : Heap) (rdf : ℕ) (t : Option String) (c : String) :
    (stage1 h0 rdf t c).trace
      = (match (h0.get rdf).crs with
         | none => []
         | some cc => if cc = 4326 then [] else [Effect.reprojectGeoms]) := by
  unfold stage1
  rcases hcrs : (h0.get rdf).crs with _ | cc
  · simp only [hcrs]
  · simp only [hcrs]
    by_cases h4 : cc = 4326 <;> simp [h4]

theorem stage1_rg_ge (h0 : Heap) (rdf : ℕ) (t : Option String) (c : String) :
    h0.frames.length ≤ (stage1 h0 rdf t c).rg := by
  unfold stage1
  rcases hcrs : (h0.get rdf).crs with _ | cc
  · simp only [hcrs]
    exact Nat.le_refl _
  · simp only [hcrs]
    by_cases h4 : cc = 4326 <;> simp [h4]

theorem stage1_get_old (h0 : Heap) (rdf : ℕ) (t : Option String) (c : String) (r : ℕ)
    (hr : r < h0.frames.length) :
    (stage1 h0 rdf t c).heap.get r = h0.get r := by
  unfold stage1
  rcases hcrs : (h0.get rdf).crs with _ | cc
  · simp only [hcrs]
    exact listGetD_append_lt _ _ _ _ hr
  · simp only [hcrs]
    by_cases h4 : cc = 4326
    · simp only [h4, if_true]
      exact listGetD_append_lt _ _ _ _ hr
    · simp only [h4, if_false]
      exact listGetD_append_lt _ _ _ _ hr

/-! ### crsAdjust preservation lemmas -/

theorem cols_crsAdjust (g : GeoDataFrame) : (crsAdjust g).cols = g.cols := by
  unfold crsAdjust
  rcases (g).crs with _ | cc
  · rfl
  · by_cases h4 : cc = 4326 <;> simp [h4, toCrs]

theorem nRows_crsAdjust (g : GeoDataFrame) : nRows (crsAdjust g) = nRows g := by
  unfold crsAdjust
  rcases (g).crs with _ | cc
  · rfl
  · by_cases h4 : cc = 4326 <;> simp [h4, nRows_toCrs]

theorem findCol_crsAdjust (g : GeoDataFrame) (n : String) :
    findCol (crsAdjust g) n = findCol g n := by
  unfold findCol
  rw [cols_crsAdjust]

theorem getCells_crsAdjust (g : GeoDataFrame) (n : String) :
    getCells (crsAdjust g) n = getCells g n := by
  unfold getCells
  rw [findCol_crsAdjust]

theorem setCol_toCrs (g : GeoDataFrame) (c : ℕ) (n : String) (v : List Cell) :
    setCol (toCrs g c) n v = toCrs (setCol g n v) c := by
  unfold setCol toCrs
  by_cases h : g.cols.any (fun cl => cl.name = n) <;> simp [h]

theorem setCol_crsAdjust (g : GeoDataFrame) (n : String) (v : List Cell) :
    setCol (crsAdjust g) n v = crsAdjust (setCol g n v) := by
  unfold crsAdjust
  rw [crs_setCol]
  rcases (g).crs with _ | cc
  · rfl
  · by_cases h4 : cc = 4326
    · simp [h4]
    · simp only [h4, if_false]
      exact setCol_toCrs g 4326 n v

/-! ### Resolution-flag lemmas -/

theorem resolveColumnFlag_crsAdjust (g : GeoDataFrame) (col : Option ColumnArg) (cat0 : Bool) :
    resolveColumnFlag (crsAdjust g) col cat0 = resolveColumnFlag g col cat0 := by
  unfold resolveColumnFlag resolveColumn
  rcases col with _ | arg
  · rfl
  · rcases arg with s | v
    · dsimp only
      rw [findCol_crsAdjust]
      rcases findCol g s with _ | c
      · rfl
      · rcases hd : c.dtype <;> simp only [hd]
    · dsimp only
      rw [nRows_crsAdjust]
      by_cases hl : v.length ≠ nRows g <;> simp [hl]

theorem resolveColumnFlag_of_ok (g : GeoDataFrame) (col : Option ColumnArg) (cat0 : Bool)
    (g2 : GeoDataFrame) (colOpt : Option String) (b : Bool)
    (h : resolveColumn g col cat0 = Except.ok (g2, colOpt, b)) :
    resolveColumnFlag g col cat0 = b := by
  unfold resolveColumnFlag
  rw [h]

/-! ### runView decomposition and stage-2 lemmas -/

theorem runView_result (classify : List Cell → String → ℕ → List ℚ) (h0 : Heap) (rdf : ℕ)
    (args : ViewArgs) :
    (runView classify h0 rdf args).result
      = (stage2Core classify (crsAdjust (h0.get rdf))
          (stage1 h0 rdf args.tiles args.crsArg).tilesUsed
          (stage1 h0 rdf args.tiles args.crsArg).mapCrs
          ((stage1 h0 rdf args.tiles args.crsArg).trace ++ [Effect.createMap])
          args.column args.cmap args.color args.tooltip args.popup
          args.categorical args.legend args.scheme args.k).2.1 := by
  simp only [runView, stage1_get_rg]

theorem runView_trace (classify : List Cell → String → ℕ → List ℚ) (h0 : Heap) (rdf : ℕ)
    (args : ViewArgs) :
    (runView classify h0 rdf args).trace
      = (stage2Core classify (crsAdjust (h0.get rdf))
          (stage1 h0 rdf args.tiles args.crsArg).tilesUsed
          (stage1 h0 rdf args.tiles args.crsArg).mapCrs
          ((stage1 h0 rdf args.tiles args.crsArg).trace ++ [Effect.createMap])
          args.column args.cmap args.color args.tooltip args.popup
          args.categorical args.legend args.scheme args.k).1 := by
  simp only [runView, stage1_get_rg]

theorem runView_heap (classify : List Cell → String → ℕ → List ℚ) (h0 : Heap) (rdf : ℕ)
    (args : ViewArgs) :
    (runView classify h0 rdf args).heap
      = (stage1 h0 rdf args.tiles args.crsArg).heap.set
          (stage1 h0 rdf args.tiles args.crsArg).rg
          (stage2Core classify (crsAdjust (h0.get rdf))
            (stage1 h0 rdf args.tiles args.crsArg).tilesUsed
            (stage1 h0 rdf args.tiles args.crsArg).mapCrs
            ((stage1 h0 rdf args.tiles args.crsArg).trace ++ [Effect.createMap])
            args.column args.cmap args.color args.tooltip args.popup
            args.categorical args.legend args.scheme args.k).2.2 := by
  simp only [runView, stage1_get_rg]

theorem stage2Core_legend_irrel (classify : List Cell → String → ℕ → List ℚ)
    (g1 : GeoDataFrame) (t : Option String) (mc : String) (tr0 : List Effect)
    (column : Option ColumnArg) (cmapA : Option CmapArg) (colorA : Option ColorArg)
    (tp pp : FieldsArg) (cat0 : Bool) (scheme : Option String) (k : ℕ) (b1 b2 : Bool)
    (h : resolveColumnFlag g1 column cat0 = false) :
    stage2Core classify g1 t mc tr0 column cmapA colorA tp pp cat0 b1 scheme k
      = stage2Core classify g1 t mc tr0 column cmapA colorA tp pp cat0 b2 scheme k := by
  unfold stage2Core
  rcases hres : resolveColumn g1 column cat0 with e | tt
  · rfl
  · have hflag : resolveColumnFlag g1 column cat0 = tt.2.2 :=
      resolveColumnFlag_of_ok g1 column cat0 tt.1 tt.2.1 tt.2.2 (by exact hres)
    have hb : tt.2.2 = false := by rw [← hflag]; exact h
    unfold stage2Post
    dsimp only
    rw [hb]
    simp

theorem warn_not_mem_stage2Core (classify : List Cell → String → ℕ → List ℚ)
    (g1 : GeoDataFrame) (t : Option String) (mc : String) (tr0 : List Effect)
    (column : Option ColumnArg) (cmapA : Option CmapArg) (colorA : Option ColorArg)
    (tp pp : FieldsArg) (cat0 legendB : Bool) (scheme : Option String) (k : ℕ)
    (h : Effect.warn ∉ tr0) :
    Effect.warn ∉ (stage2Core classify g1 t mc tr0 column cmapA colorA tp pp
      cat0 legendB scheme k).1 := by
  unfold stage2Core stage2Post
  rcases hres : resolveColumn g1 column cat0 with e | tt
  · exact h
  · dsimp only
    rcases htt : tt.2.2 with _ | _
    · simp only [Bool.false_eq_true, if_false]
      rcases tt.2.1 with _ | colName
      · simp [h]
      · simp [h]
    · simp only [if_true]
      rcases tt.2.1 with _ | colName
      · exact h
      · rcases hcr : categoricalResolve (getCells tt.1 colName) cmapA with e | cr
        · simp [hcr, h]
        · rcases hleg : legendB <;> simp [hcr, hleg, h]

theorem warn_not_mem_runView (classify : List Cell → String → ℕ → List ℚ) (h0 : Heap)
    (rdf : ℕ) (args : ViewArgs) :
    Effect.warn ∉ (runView classify h0 rdf args).trace := by
  rw [runView_trace]
  apply warn_not_mem_stage2Core
  rw [stage1_trace]
  rcases (h0.get rdf).crs with _ | cc
  · simp
  · by_cases h4 : cc = 4326 <;> simp [h4]

theorem stage2Core_invalid_cmap (classify : List Cell → String → ℕ → List ℚ)
    (g1 : GeoDataFrame) (t : Option String) (mc : String) (tr0 : List Effect)
    (column : Option ColumnArg) (cmapA : Option CmapArg) (colorA : Option ColorArg)
    (tp pp : FieldsArg) (cat0 legendB : Bool) (scheme : Option String) (k : ℕ)
    (g2 : GeoDataFrame) (colName s : String)
    (hres : resolveColumn g1 column cat0 = Except.ok (g2, some colName, true))
    (hcmap : cmapA = some (CmapArg.named s))
    (hsne : s ≠ "")
    (hs : pltColormaps.contains s = false) :
    (stage2Core classify g1 t mc tr0 column cmapA colorA tp pp cat0 legendB scheme k).2.1
        = Except.error ViewError.invalidCmap
  ∧ (stage2Core classify g1 t mc tr0 column cmapA colorA tp pp cat0 legendB scheme k).1
        = tr0 ++ [Effect.categorizeColumn] := by
  unfold stage2Core
  rw [hres]
  unfold stage2Post
  dsimp only
  rw [hcmap]
  unfold categoricalResolve
  rw [show resolvedCmap (some (CmapArg.named s)) = CmapArg.named s from by
    unfold resolvedCmap; dsimp only; rw [if_neg hsne]]
  dsimp only
  simp only [hs, Bool.false_eq_true, if_false]
  exact ⟨rfl, rfl⟩

/-! ### Category and tiling lemmas -/

theorem mem_insertVal (x v : Val) (l : List Val) :
    x ∈ insertVal v l ↔ x = v ∨ x ∈ l := by
  induction l with
  | nil => simp [insertVal]
  | cons w ws ih =>
      by_cases h : valLE v w
      · simp [insertVal, h]
      · simp [insertVal, h, ih]
        tauto

theorem mem_sortVals (x : Val) (l : List Val) : x ∈ sortVals l ↔ x ∈ l := by
  induction l with
  | nil => simp [sortVals]
  | cons v vs ih => simp [sortVals, mem_insertVal, ih]

theorem mem_foldl_distinct (l : List Val) (acc : List Val) (x : Val)
    (h : x ∈ acc ∨ x ∈ l) :
    x ∈ l.foldl (fun acc v => if acc.contains v then acc else acc ++ [v]) acc := by
  induction l generalizing acc with
  | nil => simpa using h
  | cons a t ih =>
      simp only [List.foldl_cons]
      refine ih _ ?_
      by_cases hc : acc.contains a
      · rcases h with h | h
        · exact Or.inl (by rw [if_pos hc]; exact h)
        · rcases List.mem_cons.1 h with h | h
          · subst h
            exact Or.inl (by rw [if_pos hc]; simpa using hc)
          · exact Or.inr h
      · rcases h with h | h
        · exact Or.inl (by rw [if_neg hc]; exact List.mem_append_left _ h)
        · rcases List.mem_cons.1 h with h | h
          · subst h
            exact Or.inl (by rw [if_neg hc]; exact List.mem_append_right _ (by simp))
          · exact Or.inr h

theorem mem_distinctVals (x : Val) (l : List Val) (h : x ∈ l) : x ∈ distinctVals l :=
  mem_foldl_distinct l [] x (Or.inr h)

theorem idxOfVal_lt (cats : List Val) (v : Val) (h : v ∈ cats) :
    idxOfVal cats v < cats.length := by
  induction cats with
  | nil => simp at h
  | cons c cs ih =>
      by_cases hc : c = v
      · simp [idxOfVal, hc]
      · rcases List.mem_cons.1 h with h1 | h1
        · exact absurd h1.symm hc
        · simp only [idxOfVal, hc, if_false, List.length_cons]
          exact Nat.succ_lt_succ (ih h1)

theorem pdCategorical_code_mem (cells : List Cell) (c : ℤ)
    (hc : c ∈ (pdCategorical cells).codes) :
    c = -1 ∨ (0 ≤ c ∧ c < (pdCategorical cells).categories.length) := by
  have hcodes : (pdCategorical cells).codes
      = cells.map (fun cl => match cl with
          | none => (-1 : ℤ)
          | some v => (idxOfVal (sortVals (distinctVals (cells.filterMap id))) v : ℤ)) := rfl
  have hcats : (pdCategorical cells).categories
      = sortVals (distinctVals (cells.filterMap id)) := rfl
  rw [hcodes] at hc
  simp only [List.mem_map] at hc
  obtain ⟨cell, hcell, hfc⟩ := hc
  rcases cell with _ | v
  · exact Or.inl hfc.symm
  · refine Or.inr ?_
    have hv : v ∈ cells.filterMap id := List.mem_filterMap.2 ⟨some v, hcell, rfl⟩
    have hmem : v ∈ sortVals (distinctVals (cells.filterMap id)) :=
      (mem_sortVals v _).2 (mem_distinctVals v _ hv)
    have hlt := idxOfVal_lt _ v hmem
    have hfc' : (idxOfVal (sortVals (distinctVals (cells.filterMap id))) v : ℤ) = c := hfc
    rw [hcats, ← hfc']
    exact ⟨Int.ofNat_nonneg _, by exact_mod_cast hlt⟩

theorem length_flatten_replicate (m : ℕ) (cs : List String) :
    ((List.replicate m cs).flatten).length = m * cs.length := by
  induction m with
  | zero => simp
  | succ m ih =>
      rw [List.replicate_succ, List.flatten_cons, List.length_append, ih]
      ring

theorem getElem?_flatten_replicate (m : ℕ) (cs : List String) (i : ℕ)
    (h : i < m * cs.length) :
    ((List.replicate m cs).flatten)[i]? = cs[i % cs.length]? := by
  induction m generalizing i with
  | zero => simp at h
  | succ m ih =>
      rw [List.replicate_succ, List.flatten_cons]
      by_cases hi : i < cs.length
      · rw [List.getElem?_append_left hi, Nat.mod_eq_of_lt hi]
      · have hle : cs.length ≤ i := Nat.le_of_not_lt hi
        rw [List.getElem?_append_right hle]
        have hsm : (m + 1) * cs.length = m * cs.length + cs.length := by ring
        have hb : i - cs.length < m * cs.length := by omega
        rw [ih _ hb]
        congr 1
        have hback : i - cs.length + cs.length = i := Nat.sub_add_cancel hle
        rw [← Nat.add_mod_right (i - cs.length) cs.length, hback]

theorem tiledCmap_length (cs : List String) (N : ℕ) (hne : cs ≠ []) :
    N ≤ (tiledCmap cs N).length := by
  unfold tiledCmap
  by_cases h : N > cs.length
  · rw [if_pos h, length_flatten_replicate]
    have hpos : 0 < cs.length := List.length_pos.2 hne
    have hdm := Nat.div_add_mod N cs.length
    have hml := Nat.mod_lt N hpos
    have hexp : (N / cs.length + 1) * cs.length
        = cs.length * (N / cs.length) + cs.length := by ring
    omega
  · rw [if_neg h]
    omega

theorem tiledCmap_getElem (cs : List String) (N i : ℕ) (hne : cs ≠ [])
    (hi : i < N) : (tiledCmap cs N)[i]? = cs[i % cs.length]? := by
  unfold tiledCmap
  by_cases h : N > cs.length
  · rw [if_pos h]
    refine getElem?_flatten_replicate _ _ _ ?_
    have hpos : 0 < cs.length := List.length_pos.2 hne
    have hdm := Nat.div_add_mod N cs.length
    have hml := Nat.mod_lt N hpos
    have hexp : (N / cs.length + 1) * cs.length
        = cs.length * (N / cs.length) + cs.length := by ring
    omega
  · rw [if_neg h]
    have : i < cs.length := by omega
    rw [Nat.mod_eq_of_lt this]

theorem tiledCmap_ne_nil (cs : List String) (N : ℕ) (hne : cs ≠ []) :
    tiledCmap cs N ≠ [] := by
  have hpos : 0 < cs.length := List.length_pos.2 hne
  unfold tiledCmap
  by_cases h : N > cs.length
  · rw [if_pos h]
    refine List.ne_nil_of_length_pos ?_
    rw [length_flatten_replicate]
    have hexp : (N / cs.length + 1) * cs.length
        = cs.length * (N / cs.length) + cs.length := by ring
    omega
  · rw [if_neg h]
    exact hne

/-! ### np.take lemmas -/

theorem npTakeStr_nonneg (l : List String) (c : ℤ) (h : 0 ≤ c) :
    npTakeStr l c = l[c.toNat]? := by
  unfold npTakeStr
  rw [if_pos h]

theorem npTakeStr_neg_one (l : List String) (hne : l ≠ []) :
    npTakeStr l (-1) = l[l.length - 1]? := by
  have hpos : 0 < l.length := List.length_pos.2 hne
  have h1 : ((-(-1 : ℤ)).toNat) = 1 := by norm_num
  unfold npTakeStr
  rw [if_neg (by norm_num), if_pos (by rw [h1]; omega), h1]

theorem npTakeStr_isSome (l : List String) (c : ℤ) (h1 : -1 ≤ c)
    (h2 : c < l.length) (h3 : l ≠ []) : (npTakeStr l c).isSome = true := by
  by_cases h0 : 0 ≤ c
  · rw [npTakeStr_nonneg l c h0, List.getElem?_eq_getElem (by omega)]
    rfl
  · have hc : c = -1 := by omega
    subst hc
    have hpos : 0 < l.length := List.length_pos.2 h3
    rw [npTakeStr_neg_one l h3, List.getElem?_eq_getElem (by omega)]
    rfl

/-! ### Categorical list-palette resolution -/
theorem categoricalResolve_clist_ok (cells : List Cell) (cs : List String)
    (hne : cs ≠ []) :
    categoricalResolve cells (some (CmapArg.clist cs))
      = Except.ok
          ⟨(pdCategorical cells).categories,
           (pdCategorical cells).codes.map
             (fun i => (npTakeStr
               (tiledCmap cs (pdCategorical cells).categories.length) i).getD ""),
           (List.range (pdCategorical cells).categories.length).map
             (fun i => (npTakeStr
               (tiledCmap cs (pdCategorical cells).categories.length)
               (Int.ofNat i)).getD "")⟩ := by
  have htne := tiledCmap_ne_nil cs (pdCategorical cells).categories.length hne
  have htpos : (0 : ℤ) < (tiledCmap cs (pdCategorical cells).categories.length).length := by
    exact_mod_cast List.length_pos.2 htne
  have htlen : ((pdCategorical cells).categories.length : ℤ)
      ≤ (tiledCmap cs (pdCategorical cells).categories.length).length := by
    exact_mod_cast tiledCmap_length cs (pdCategorical cells).categories.length hne
  have hall1 : (pdCategorical cells).codes.all
      (fun i => (npTakeStr (tiledCmap cs (pdCategorical cells).categories.length) i).isSome)
        = true := by
    rw [List.all_eq_true]
    intro c hcmem
    rcases pdCategorical_code_mem cells c hcmem with hc | ⟨hc0, hcN⟩
    · subst hc
      exact npTakeStr_isSome _ _ (by norm_num) (by omega) htne
    · exact npTakeStr_isSome _ _ (by omega) (by omega) htne
  have hall2 : ((List.range (pdCategorical cells).categories.length).map Int.ofNat).all
      (fun i => (npTakeStr (tiledCmap cs (pdCategorical cells).categories.length) i).isSome)
        = true := by
    rw [List.all_eq_true]
    intro c hcmem
    simp only [List.mem_map, List.mem_range] at hcmem
    obtain ⟨j, hj, rfl⟩ := hcmem
    have hjz : ((j : ℕ) : ℤ) < ((pdCategorical cells).categories.length : ℤ) := by
      exact_mod_cast hj
    refine npTakeStr_isSome _ _ ?_ ?_ htne
    · show (-1 : ℤ) ≤ (j : ℤ)
      omega
    · show ((j : ℕ) : ℤ) < _
      omega
  unfold categoricalResolve
  rw [show resolvedCmap (some (CmapArg.clist cs)) = CmapArg.clist cs from by
    unfold resolvedCmap; dsimp only; rw [if_neg hne]]
  dsimp only
  unfold npTakeList
  rw [if_pos hall1, if_pos hall2]
  dsimp only
  rw [List.map_map]
  rfl

/-! ### Tooltip field lemmas -/

theorem tooltipPost_no_synthetic (l : List String) (hnd : l.Nodup) :
    "__folium_key" ∉ tooltipPost l ∧ "__plottable_column" ∉ tooltipPost l := by
  unfold tooltipPost
  constructor
  · intro hmem
    have h1 : "__folium_key" ∈ l.erase "__folium_key" := List.mem_of_mem_erase hmem
    have := (List.Nodup.mem_erase_iff hnd).1 h1
    exact this.1 rfl
  · intro hmem
    have h2 := (List.Nodup.mem_erase_iff (List.Nodup.erase _ hnd)).1 hmem
    exact h2.1 rfl

theorem tooltipPost_of_not_mem (l : List String)
    (h1 : "__folium_key" ∉ l) (h2 : "__plottable_column" ∉ l) :
    tooltipPost l = l := by
  unfold tooltipPost
  rw [List.erase_of_not_mem h1, List.erase_of_not_mem h2]

/-! ### Join lemmas (folium key join) -/

theorem joinKey_none_of_lt : ∀ (vals : List Cell) (b t : ℕ), t < b →
    ((((List.range' b vals.length).map (fun j : ℕ => some (Val.num (j : ℚ)))).zip vals).filter
      (fun p => p.1 == some (Val.num (t : ℚ)))).map Prod.snd = [] := by
  intro vals
  induction vals with
  | nil => intro b t _; rfl
  | cons v vs ih =>
      intro b t hbt
      rw [List.length_cons, List.range'_succ, List.map_cons, List.zip_cons_cons]
      rw [List.filter_cons_of_neg]
      · exact ih (b + 1) t (by omega)
      · simp only [beq_iff_eq, Option.some.injEq, Val.num.injEq]
        intro hc
        have hq : b = t := by exact_mod_cast hc
        omega

theorem joinKey_range_aux : ∀ (vals : List Cell) (a i : ℕ), i < vals.length →
    ((((List.range' a vals.length).map (fun j : ℕ => some (Val.num (j : ℚ)))).zip vals).filter
      (fun p => p.1 == some (Val.num ((a + i : ℕ) : ℚ)))).map Prod.snd
      = [vals.getD i none] := by
  intro vals
  induction vals with
  | nil => intro a i hi; simp at hi
  | cons v vs ih =>
      intro a i hi
      rw [List.length_cons, List.range'_succ, List.map_cons, List.zip_cons_cons]
      rcases i with _ | i
      · rw [List.filter_cons_of_pos]
        · rw [List.map_cons]
          have hrest := joinKey_none_of_lt vs (a + 1) (a + 0) (by omega)
          rw [hrest]
          rfl
        · simp
      · rw [List.filter_cons_of_neg]
        · have hih := ih (a + 1) i (by simpa using hi)
          have harg : a + 1 + i = a + (i + 1) := by omega
          rw [harg] at hih
          rw [hih]
          rfl
        · simp only [beq_iff_eq, Option.some.injEq, Val.num.injEq]
          intro hc
          have hq : a = a + (i + 1) := by exact_mod_cast hc
          omega

theorem joinKey_range (vals : List Cell) (n i : ℕ) (hlen : vals.length = n)
    (hi : i < n) :
    joinKey ((List.range n).map (fun j : ℕ => some (Val.num (j : ℚ)))) vals (i : ℚ)
      = [vals.getD i none] := by
  unfold joinKey
  subst hlen
  rw [List.range_eq_range']
  have := joinKey_range_aux vals 0 i hi
  simpa using this

/-! ### Concrete inputs used by witnesses and counterexamples -/

/-- A concrete stand-in for the external classifier, used in runs where no
scheme is requested (it is then never called). -/
def classifyZero : List Cell → String → ℕ → List ℚ := fun _ _ _ => []

/-- Modelled from the spec: what the external quantile classifier returns for
the column `[1, 1, 2]` with `k = 2` — the 50% and 100% quantiles `[1, 2]`,
two strictly increasing bin edges whose first edge equals the column minimum. -/
def ceClassify : List Cell → String → ℕ → List ℚ := fun _ _ _ => [1, 2]

/-- Modelled from the spec: what the external quantile classifier returns for
the column `[10, 20, 30, 40, 50]` with `k = 4` — the quartile edges. -/
def quartClassify : List Cell → String → ℕ → List ℚ := fun _ _ _ => [20, 30, 40, 50]

/-- A two-row table with a numeric and a string column. -/
def dfW : GeoDataFrame :=
  ⟨[⟨"pop", Dtype.numeric, [some (Val.num 10), some (Val.num 20)]⟩,
    ⟨"name", Dtype.objectD, [some (Val.str "a"), some (Val.str "b")]⟩],
   "geometry", [Geom.raw 0, Geom.raw 1], some 4326⟩

/-- The `test_vmin_vmax` shape: a numeric `range` column. -/
def df5 : GeoDataFrame :=
  ⟨[⟨"range", Dtype.numeric, [some (Val.num 0), some (Val.num 1), some (Val.num 2)]⟩],
   "geometry", [Geom.raw 0, Geom.raw 1, Geom.raw 2], some 4326⟩

def args5 : ViewArgs := { column := some (ColumnArg.name "range") }

/-- A frame whose crs is not 4326, so the prologue reprojects. -/
def df6 : GeoDataFrame :=
  ⟨[⟨"c", Dtype.numeric, [some (Val.num 1), some (Val.num 2)]⟩],
   "geometry", [Geom.raw 0, Geom.raw 1], some 3857⟩

def args6 : ViewArgs :=
  { column := some (ColumnArg.name "c"), categorical := true,
    cmap := some (CmapArg.named "nonsense") }

/-- The `test_missing_vals` shape: an object column with a missing value. -/
def df7 : GeoDataFrame :=
  ⟨[⟨"c", Dtype.objectD, [some (Val.str "A"), some (Val.str "B"), none]⟩,
    ⟨"pop", Dtype.numeric, [some (Val.num 1), some (Val.num 2), some (Val.num 3)]⟩],
   "geometry", [Geom.raw 0, Geom.raw 1, Geom.raw 2], some 4326⟩

def args7 : ViewArgs :=
  { column := some (ColumnArg.name "c"),
    cmap := some (CmapArg.clist ["red", "blue"]),
    legend := true }

/-! ### Claim C2 -/

/-- C2: for every categorical input whose explicit color list is shorter than
the category count `N`, the categorical color resolution (lines 256-261 of
`view`) succeeds — no error for a too-short list — every category `0..N-1`
receives a color, and the per-category colors repeat the list in its original
cyclic order: color `i` is `cs[i % cs.length]`. -/
theorem c2_short_color_list_cycles (cells : List Cell) (cs : List String)
    (hne : cs ≠ [])
    (hlt : cs.length < (pdCategorical cells).categories.length) :
    ∃ cr : CatResolved,
      categoricalResolve cells (some (CmapArg.clist cs)) = Except.ok cr
      ∧ cr.legendColors.length = (pdCategorical cells).categories.length
      ∧ ∀ i : ℕ, i < (pdCategorical cells).categories.length →
          cr.legendColors[i]? = cs[i % cs.length]? := by
  refine ⟨_, categoricalResolve_clist_ok cells cs hne, by simp, ?_⟩
  intro i hi
  have hmlt : i % cs.length < cs.length := Nat.mod_lt i (List.length_pos.2 hne)
  have h2 : npTakeStr (tiledCmap cs (pdCategorical cells).categories.length) (Int.ofNat i)
      = (tiledCmap cs (pdCategorical cells).categories.length)[i]? := by
    unfold npTakeStr
    rw [if_pos (by exact Int.natCast_nonneg i)]
    rfl
  have h3 := tiledCmap_getElem cs (pdCategorical cells).categories.length i hne hi
  rw [List.getElem?_map, List.getElem?_range hi]
  dsimp only [Option.map]
  rw [h2, h3, List.getElem?_eq_getElem hmlt]
  rfl

/-- C2 witness: five numeric categories over the two-color list; every
hypothesis holds and the colors cycle. -/
theorem c2_witness :
    (["red", "blue"] ≠ ([] : List String))
  ∧ (["red", "blue"] : List String).length
      < (pdCategorical [some (Val.num 1), some (Val.num 2), some (Val.num 3),
          some (Val.num 4), some (Val.num 5)]).categories.length
  ∧ (∃ cr : CatResolved,
      categoricalResolve [some (Val.num 1), some (Val.num 2), some (Val.num 3),
          some (Val.num 4), some (Val.num 5)] (some (CmapArg.clist ["red", "blue"]))
        = Except.ok cr
      ∧ cr.legendColors.length
          = (pdCategorical [some (Val.num 1), some (Val.num 2), some (Val.num 3),
              some (Val.num 4), some (Val.num 5)]).categories.length
      ∧ ∀ i : ℕ, i < (pdCategorical [some (Val.num 1), some (Val.num 2),
            some (Val.num 3), some (Val.num 4), some (Val.num 5)]).categories.length →
          cr.legendColors[i]? = ["red", "blue"][i % 2]?) :=
  ⟨by decide, by decide,
   c2_short_color_list_cycles _ ["red", "blue"] (by decide) (by decide)⟩

/-! ### Claim C3 (corrected) -/

/-- C3 counterexample: for the column `[1, 1, 2]` the quantile classifier
returns the two strictly increasing edges `[1, 2]` (its first edge equals the
column minimum, which happens whenever the minimum is duplicated); prepending
the observed minimum (line 501) yields `[1, 1, 2]`, which has `k + 1` entries
but is not strictly increasing — refuting the claim as stated. -/
theorem c3_counterexample :
    List.Pairwise (fun a b => a < b)
      (ceClassify [some (Val.num 1), some (Val.num 1), some (Val.num 2)] "quantiles" 2)
  ∧ (ceClassify [some (Val.num 1), some (Val.num 1), some (Val.num 2)] "quantiles" 2).length = 2
  ∧ colMin [some (Val.num 1), some (Val.num 1), some (Val.num 2)] = some 1
  ∧ (choroplethBins ceClassify [some (Val.num 1), some (Val.num 1), some (Val.num 2)]
      "quantiles" 2).length = 2 + 1
  ∧ ¬ List.Pairwise (fun a b => a < b)
      (choroplethBins ceClassify [some (Val.num 1), some (Val.num 1), some (Val.num 2)]
        "quantiles" 2) :=
  ⟨by decide, by decide, by decide, by decide, by decide⟩

/-- C3 amended: when a named scheme with class count `k` is requested, the
classifier is invoked on the raw column values (missing values included) and
the observed minimum is prepended to its edges, so the result always has
exactly `k + 1` entries and starts at the observed minimum; it is strictly
increasing provided the classifier's `k` edges are strictly increasing and its
first edge lies strictly above the observed minimum (not guaranteed when the
minimum is duplicated in the data). -/
theorem c3_bins_amended (classify : List Cell → String → ℕ → List ℚ)
    (cells : List Cell) (scheme : String) (k : ℕ) (m : ℚ)
    (hm : colMin cells = some m)
    (hlen : (classify cells scheme k).length = k)
    (hchain : List.Pairwise (fun a b => a < b) (classify cells scheme k))
    (hhead : ∀ e, (classify cells scheme k).head? = some e → m < e) :
    (choroplethBins classify cells scheme k).length = k + 1
  ∧ (choroplethBins classify cells scheme k).head? = some m
  ∧ List.Pairwise (fun a b => a < b) (choroplethBins classify cells scheme k) := by
  unfold choroplethBins
  rw [hm]
  refine ⟨by simp [hlen], rfl, ?_⟩
  rw [List.pairwise_cons]
  constructor
  · intro e he
    rcases hh : (classify cells scheme k).head? with _ | x
    · rw [List.head?_eq_none_iff] at hh
      rw [hh] at he
      simp at he
    · have hmx := hhead x hh
      have hsorted : List.Pairwise (fun a b => a < b) (classify cells scheme k) := hchain
      rcases List.head?_eq_some_iff.1 hh with ⟨t, ht⟩
      rw [ht] at he hsorted
      show m < e
      rcases List.mem_cons.1 he with he1 | he1
      · rw [he1]; exact hmx
      · exact lt_trans hmx ((List.pairwise_cons.1 hsorted).1 e he1)
  · exact hchain

/-- C3 witness: the spec's own concrete scenario — values `[10,20,30,40,50]`,
quantile scheme, `k = 4` — satisfies every hypothesis and gives the five
strictly increasing edges `[10, 20, 30, 40, 50]`. -/
theorem c3_witness :
    colMin [some (Val.num 10), some (Val.num 20), some (Val.num 30), some (Val.num 40),
      some (Val.num 50)] = some 10
  ∧ (quartClassify [some (Val.num 10), some (Val.num 20), some (Val.num 30),
      some (Val.num 40), some (Val.num 50)] "quantiles" 4).length = 4
  ∧ ((choroplethBins quartClassify [some (Val.num 10), some (Val.num 20), some (Val.num 30),
        some (Val.num 40), some (Val.num 50)] "quantiles" 4).length = 4 + 1
      ∧ (choroplethBins quartClassify [some (Val.num 10), some (Val.num 20), some (Val.num 30),
          some (Val.num 40), some (Val.num 50)] "quantiles" 4).head? = some 10
      ∧ List.Pairwise (fun a b => a < b)
          (choroplethBins quartClassify [some (Val.num 10), some (Val.num 20),
            some (Val.num 30), some (Val.num 40), some (Val.num 50)] "quantiles" 4)) :=
  ⟨by decide, by decide,
   c3_bins_amended quartClassify _ "quantiles" 4 10 (by decide) (by decide) (by decide)
     (by intro e he; rw [show (quartClassify _ "quantiles" 4).head? = some 20 from rfl] at he;
         cases he; decide)⟩

/-! ### Claim C4 -/

/-- C4: `_tooltip_popup` (lines 523-546) with `tooltip=True` (likewise
`popup=True`) yields exactly the table's attribute columns in table order,
excluding the geometry column, with the internal synthetic attribute names
(`__folium_key`, `__plottable_column`) never appearing in the list; an integer
`n ≥ 1` selects the first `n` attributes and a string selects that single
attribute. -/
theorem c4_tooltip_fields (g : GeoDataFrame) (hnd : (nonGeomColumns g).Nodup) :
    (tooltipPopupFields (FieldsArg.boolArg true) g
        = some (((nonGeomColumns g).erase "__folium_key").erase "__plottable_column")
      ∧ ∀ l, tooltipPopupFields (FieldsArg.boolArg true) g = some l →
          "__folium_key" ∉ l ∧ "__plottable_column" ∉ l)
  ∧ ("__folium_key" ∉ nonGeomColumns g → "__plottable_column" ∉ nonGeomColumns g →
      tooltipPopupFields (FieldsArg.boolArg true) g = some (nonGeomColumns g))
  ∧ (∀ n : ℤ, 1 ≤ n → "__folium_key" ∉ nonGeomColumns g →
      "__plottable_column" ∉ nonGeomColumns g →
      tooltipPopupFields (FieldsArg.intArg n) g = some ((nonGeomColumns g).take n.toNat))
  ∧ (∀ s : String, s ≠ "__folium_key" → s ≠ "__plottable_column" →
      tooltipPopupFields (FieldsArg.strArg s) g = some [s]) := by
  refine ⟨⟨rfl, ?_⟩, ?_, ?_, ?_⟩
  · intro l hl
    have : l = tooltipPost (nonGeomColumns g) := by
      have := hl.symm
      unfold tooltipPopupFields at this
      exact (Option.some.inj this)
    rw [this]
    exact tooltipPost_no_synthetic _ hnd
  · intro h1 h2
    unfold tooltipPopupFields
    rw [tooltipPost_of_not_mem _ h1 h2]
  · intro n hn h1 h2
    unfold tooltipPopupFields
    dsimp only
    rw [if_neg (by omega)]
    unfold pySliceTo
    rw [if_pos (by omega)]
    rw [tooltipPost_of_not_mem _
      (fun hmem => h1 (List.take_subset _ _ hmem))
      (fun hmem => h2 (List.take_subset _ _ hmem))]
  · intro s hs1 hs2
    unfold tooltipPopupFields
    dsimp only
    unfold tooltipPost
    rw [List.erase_of_not_mem (by simpa using Ne.symm hs2),
      List.erase_of_not_mem (by simpa using Ne.symm hs1)]

/-- C4 witness: the two-attribute table `[pop, name]` gives the field list
`["pop", "name"]` for `tooltip=True` with no synthetic names in it. -/
theorem c4_witness :
    (nonGeomColumns dfW).Nodup
  ∧ ((tooltipPopupFields (FieldsArg.boolArg true) dfW
        = some (((nonGeomColumns dfW).erase "__folium_key").erase "__plottable_column")
      ∧ ∀ l, tooltipPopupFields (FieldsArg.boolArg true) dfW = some l →
          "__folium_key" ∉ l ∧ "__plottable_column" ∉ l)
  ∧ ("__folium_key" ∉ nonGeomColumns dfW → "__plottable_column" ∉ nonGeomColumns dfW →
      tooltipPopupFields (FieldsArg.boolArg true) dfW = some (nonGeomColumns dfW))
  ∧ (∀ n : ℤ, 1 ≤ n → "__folium_key" ∉ nonGeomColumns dfW →
      "__plottable_column" ∉ nonGeomColumns dfW →
      tooltipPopupFields (FieldsArg.intArg n) dfW
        = some ((nonGeomColumns dfW).take n.toNat))
  ∧ (∀ s : String, s ≠ "__folium_key" → s ≠ "__plottable_column" →
      tooltipPopupFields (FieldsArg.strArg s) dfW = some [s])) :=
  ⟨by decide, c4_tooltip_fields dfW (by decide)⟩

/-! ### Claim C5 (code_bug: vmin/vmax ignored, no warning) -/

/-- C5 (evaluating the code at the failing input of `test_vmin_vmax`): a call
with `vmin` far above the data minimum is indistinguishable — heap, trace and
output — from the same call without `vmin`, because the body of `view` never
reads `vmin`/`vmax` (its docstring marks them "TODO: not implemented yet").
In particular no warning effect is ever emitted, contradicting the claim's
clamp-and-warn behavior, which the repository's own test suite
(`test_vmin_vmax`) expects. -/
theorem c5_vmin_ignored_eval :
    view classifyZero df5 { args5 with vmin := some 100000 }
      = view classifyZero df5 args5
  ∧ Effect.warn ∉ (view classifyZero df5 { args5 with vmin := some 100000 }).trace
  ∧ (∀ (classify : List Cell → String → ℕ → List ℚ) (df : GeoDataFrame)
      (args : ViewArgs) (v1 v2 : Option ℚ),
      view classify df { args with vmin := v1, vmax := v2 } = view classify df args
      ∧ Effect.warn ∉ (view classify df args).trace) :=
  ⟨rfl, warn_not_mem_runView classifyZero ⟨[df5]⟩ 0 _,
   fun classify df args v1 v2 => ⟨rfl, warn_not_mem_runView classify ⟨[df]⟩ 0 args⟩⟩

/-! ### Claim C7 (code_bug: no reserved missing-value color) -/

/-- C7 (evaluating the code at a failing input): on the column
`["A", "B", NaN]` with the explicit palette `["red", "blue"]`, the missing
third row receives `"blue"` — the palette color of category `"B"`
(`np.take` wraps the sentinel code `-1` to the last list entry) — not any
reserved missing-value color, and the legend holds exactly the two categories
with no missing entry.  The repository's own tests (`test_missing_vals`,
`test_categorical_legend`) instead expect a caller-configurable
`missing_kwds` color and a `NaN` legend entry, which `view` does not
implement. -/
theorem c7_missing_value_eval :
    (view classifyZero df7 args7).result.map
        (fun o => (getCells o.gdfFinal "__folium_color", o.legendEntry))
      = Except.ok ([some (Val.str "red"), some (Val.str "blue"), some (Val.str "blue")],
          some ("c", [Val.str "A", Val.str "B"], ["red", "blue"]))
  ∧ (∀ (cells : List Cell) (cs : List String) (hne : cs ≠ []) (i : ℕ),
      cells[i]? = some none →
      ∃ cr : CatResolved,
        categoricalResolve cells (some (CmapArg.clist cs)) = Except.ok cr
        ∧ cr.rowColors[i]?
            = some ((tiledCmap cs (pdCategorical cells).categories.length).getLast
                (tiledCmap_ne_nil cs _ hne))
        ∧ cr.legendColors.length = (pdCategorical cells).categories.length) := by
  constructor
  · decide
  · intro cells cs hne i hmiss
    refine ⟨_, categoricalResolve_clist_ok cells cs hne, ?_, by simp⟩
    have hcode : (pdCategorical cells).codes[i]? = some (-1) := by
      unfold pdCategorical
      dsimp only
      rw [List.getElem?_map, hmiss]
      rfl
    rw [List.getElem?_map, hcode]
    dsimp only [Option.map]
    have htne := tiledCmap_ne_nil cs (pdCategorical cells).categories.length hne
    rw [npTakeStr_neg_one _ htne]
    rw [List.getElem?_eq_getElem
      (by have := List.length_pos.2 htne; omega)]
    rw [Option.getD_some]
    congr 1
    exact (List.getLast_eq_getElem _ htne).symm

/-! ### Claim C6 (corrected) -/

/-- C6 counterexample: a categorical call with the invalid palette
`"nonsense"` on a frame whose crs is not 4326 does fail with the
invalid-palette error, but only after the working copy's geometry has been
reprojected and the column converted to categories — both effects are in the
trace before the error — refuting "validated before any row-level or geometry
work". -/
theorem c6_counterexample :
    (view classifyZero df6 args6).result = Except.error ViewError.invalidCmap
  ∧ Effect.reprojectGeoms ∈ (view classifyZero df6 args6).trace
  ∧ Effect.categorizeColumn ∈ (view classifyZero df6 args6).trace :=
  ⟨by decide, by decide, by decide⟩

/-- C6 amended: in categorical mode a non-falsy palette that is neither a
recognized named colormap nor list-like (a non-empty unrecognized name; the
falsy palettes `None`, `""` and `[]` instead fall back silently to the
default `"tab20"` at line 244) makes the call fail with the invalid-palette
error before any layer is rendered (no render effect ever occurs), though
after the working copy has been made, reprojected, and the active column
converted to categories. -/
theorem c6_invalid_cmap_amended (classify : List Cell → String → ℕ → List ℚ)
    (df : GeoDataFrame) (args : ViewArgs) (g2 : GeoDataFrame) (colName s : String)
    (hres : resolveColumn (crsAdjust df) args.column args.categorical
        = Except.ok (g2, some colName, true))
    (hcmap : args.cmap = some (CmapArg.named s))
    (hsne : s ≠ "")
    (hs : pltColormaps.contains s = false) :
    (view classify df args).result = Except.error ViewError.invalidCmap
  ∧ Effect.renderLayer ∉ (view classify df args).trace := by
  have hdf : Heap.get ⟨[df]⟩ 0 = df := rfl
  have hcore := stage2Core_invalid_cmap classify (crsAdjust df)
    (stage1 (⟨[df]⟩ : Heap) 0 args.tiles args.crsArg).tilesUsed
    (stage1 (⟨[df]⟩ : Heap) 0 args.tiles args.crsArg).mapCrs
    ((stage1 (⟨[df]⟩ : Heap) 0 args.tiles args.crsArg).trace ++ [Effect.createMap])
    args.column args.cmap args.color args.tooltip args.popup
    args.categorical args.legend args.scheme args.k g2 colName s hres hcmap hsne hs
  constructor
  · rw [show view classify df args = runView classify ⟨[df]⟩ 0 args from rfl,
      runView_result, hdf]
    exact hcore.1
  · rw [show view classify df args = runView classify ⟨[df]⟩ 0 args from rfl,
      runView_trace, hdf, hcore.2]
    rw [stage1_trace, hdf]
    rcases hcrs : df.crs with _ | cc
    · simp [hcrs]
    · by_cases h4 : cc = 4326 <;> simp [hcrs, h4]

/-- C6 witness for the amended claim, at the concrete counterexample input. -/
theorem c6_witness :
    resolveColumn (crsAdjust df6) args6.column args6.categorical
      = Except.ok (crsAdjust df6, some "c", true)
  ∧ args6.cmap = some (CmapArg.named "nonsense")
  ∧ ("nonsense" : String) ≠ ""
  ∧ pltColormaps.contains "nonsense" = false
  ∧ ((view classifyZero df6 args6).result = Except.error ViewError.invalidCmap
      ∧ Effect.renderLayer ∉ (view classifyZero df6 args6).trace) :=
  ⟨by decide, rfl, by decide, by decide,
   c6_invalid_cmap_amended classifyZero df6 args6 (crsAdjust df6) "c" "nonsense"
     (by decide) rfl (by decide) (by decide)⟩

/-! ### Claim C8 -/

/-- C8: a `view` call never mutates the caller's frame: for every heap, the
object the caller's reference points to is identical before and after
`runView` (all reprojection and synthetic-column writes land in the working
copy allocated by `df.copy()`), and in particular `view` leaves the caller's
frame in heap slot 0 unchanged. -/
theorem c8_input_frame_preserved (classify : List Cell → String → ℕ → List ℚ)
    (args : ViewArgs) :
    (∀ (h0 : Heap) (rdf : ℕ), rdf < h0.frames.length →
      (runView classify h0 rdf args).heap.get rdf = h0.get rdf)
  ∧ (∀ df : GeoDataFrame, (view classify df args).heap.get 0 = df) := by
  have hmain : ∀ (h0 : Heap) (rdf : ℕ), rdf < h0.frames.length →
      (runView classify h0 rdf args).heap.get rdf = h0.get rdf := by
    intro h0 rdf hr
    rw [runView_heap]
    rw [Heap.get_set_ne _ _ _ _
      (by have := stage1_rg_ge h0 rdf args.tiles args.crsArg; omega)]
    exact stage1_get_old h0 rdf args.tiles args.crsArg rdf hr
  refine ⟨hmain, fun df => ?_⟩
  have := hmain ⟨[df]⟩ 0 (by simp)
  rw [show view classify df args = runView classify ⟨[df]⟩ 0 args from rfl, this]
  rfl

/-- C8 witness at a concrete heap and frame. -/
theorem c8_witness :
    (0 < (Heap.mk [dfW]).frames.length)
  ∧ (runView classifyZero ⟨[dfW]⟩ 0 args7).heap.get 0 = Heap.get ⟨[dfW]⟩ 0
  ∧ (view classifyZero dfW args7).heap.get 0 = dfW :=
  ⟨by decide,
   (c8_input_frame_preserved classifyZero args7).1 ⟨[dfW]⟩ 0 (by decide),
   (c8_input_frame_preserved classifyZero args7).2 dfW⟩

/-! ### Claim C10 -/

/-- C10: the `legend` argument influences the run only in categorical mode
(line 303, `if categorical and legend`): whenever the call resolves to
continuous (choropleth) mode or uniform-color mode — i.e. the resolved
categorical flag is false — two runs differing only in `legend` produce
identical results: same heap, same trace, same rendered output. -/
theorem c10_legend_continuous_irrelevant (classify : List Cell → String → ℕ → List ℚ)
    (df : GeoDataFrame) (args : ViewArgs) (b1 b2 : Bool)
    (h : resolvedCategoricalFlag df args = false) :
    view classify df { args with legend := b1 }
      = view classify df { args with legend := b2 } := by
  have hdf : Heap.get ⟨[df]⟩ 0 = df := rfl
  have hflag : resolveColumnFlag (crsAdjust (Heap.get ⟨[df]⟩ 0)) args.column args.categorical
      = false := by
    rw [hdf, resolveColumnFlag_crsAdjust]
    exact h
  show runView classify ⟨[df]⟩ 0 { args with legend := b1 }
      = runView classify ⟨[df]⟩ 0 { args with legend := b2 }
  unfold runView
  dsimp only
  rw [stage1_get_rg]
  rw [stage2Core_legend_irrel classify _ _ _ _ args.column args.cmap args.color
    args.tooltip args.popup args.categorical args.scheme args.k b1 b2 hflag]

/-- C10 witness: a choropleth-mode run (numeric column, no categorical flag)
is unchanged when `legend` flips. -/
theorem c10_witness :
    resolvedCategoricalFlag df5 args5 = false
  ∧ view classifyZero df5 { args5 with legend := true }
      = view classifyZero df5 { args5 with legend := false } :=
  ⟨by decide,
   c10_legend_continuous_irrelevant classifyZero df5 args5 true false (by decide)⟩

/-! ### Claim C9 -/

/-- C9: `_choropleth` adds the synthetic `"__folium_key"` column holding
exactly `0..n-1` in row order to the working copy; joining geometry to data
through that key matches every row to exactly its own data value, regardless
of the table's original index or sort order; and the synthetic key never
appears in the resolved tooltip/popup field lists. -/
theorem c9_folium_key_join (classify : List Cell → String → ℕ → List ℚ)
    (g : GeoDataFrame) (colName : String) (cmapA : Option CmapArg) (k : ℕ)
    (scheme : Option String) (tooltip popup : FieldsArg)
    (hfresh : "__folium_key" ∉ nonGeomColumns g)
    (hnd : (nonGeomColumns g).Nodup)
    (hcol : colName ≠ "__folium_key")
    (hlen : (getCells g colName).length = nRows g) :
    getCells (choroRun classify g colName cmapA k scheme tooltip popup).1 "__folium_key"
      = (List.range (nRows g)).map (fun i : ℕ => some (Val.num (i : ℚ)))
  ∧ (∀ i : ℕ, i < nRows g →
      joinKey
        (getCells (choroRun classify g colName cmapA k scheme tooltip popup).1 "__folium_key")
        (getCells (choroRun classify g colName cmapA k scheme tooltip popup).1 colName)
        (i : ℚ)
        = [(getCells (choroRun classify g colName cmapA k scheme tooltip popup).1
            colName).getD i none])
  ∧ (∀ l, tooltipPopupFields (FieldsArg.boolArg true)
        (choroRun classify g colName cmapA k scheme tooltip popup).1 = some l →
      "__folium_key" ∉ l) := by
  have hg : (choroRun classify g colName cmapA k scheme tooltip popup).1
      = setCol g "__folium_key"
          ((List.range (nRows g)).map (fun i : ℕ => some (Val.num (i : ℚ)))) := rfl
  have hkey : getCells (choroRun classify g colName cmapA k scheme tooltip popup).1
      "__folium_key" = (List.range (nRows g)).map (fun i : ℕ => some (Val.num (i : ℚ))) := by
    rw [hg, getCells_setCol_self]
  have hdata : getCells (choroRun classify g colName cmapA k scheme tooltip popup).1 colName
      = getCells g colName := by
    rw [hg, getCells_setCol_other _ _ _ _ hcol]
  refine ⟨hkey, ?_, ?_⟩
  · intro i hi
    rw [hkey, hdata]
    exact joinKey_range (getCells g colName) (nRows g) i hlen hi
  · intro l hl
    have hcols : nonGeomColumns (choroRun classify g colName cmapA k scheme tooltip popup).1
        = nonGeomColumns g ++ ["__folium_key"] := by
      rw [hg]
      exact nonGeomColumns_setCol_fresh g _ _ hfresh
    have hnd' : (nonGeomColumns (choroRun classify g colName cmapA k scheme tooltip popup).1).Nodup := by
      rw [hcols, List.nodup_append]
      refine ⟨hnd, List.nodup_singleton _, ?_⟩
      intro a ha hb
      rw [List.mem_singleton] at hb
      subst hb
      exact hfresh ha
    have hlval : l = tooltipPost
        (nonGeomColumns (choroRun classify g colName cmapA k scheme tooltip popup).1) := by
      unfold tooltipPopupFields at hl
      exact (Option.some.inj hl).symm
    rw [hlval]
    exact (tooltipPost_no_synthetic _ hnd').1

/-- C9 witness: the two-row table joined on its key column. -/
theorem c9_witness :
    ("__folium_key" ∉ nonGeomColumns dfW)
  ∧ (nonGeomColumns dfW).Nodup
  ∧ ("pop" ≠ "__folium_key")
  ∧ (getCells dfW "pop").length = nRows dfW
  ∧ (getCells (choroRun classifyZero dfW "pop" none 5 none (FieldsArg.boolArg true)
        (FieldsArg.boolArg true)).1 "__folium_key"
      = (List.range (nRows dfW)).map (fun i : ℕ => some (Val.num (i : ℚ)))
    ∧ (∀ i : ℕ, i < nRows dfW →
        joinKey
          (getCells (choroRun classifyZero dfW "pop" none 5 none (FieldsArg.boolArg true)
            (FieldsArg.boolArg true)).1 "__folium_key")
          (getCells (choroRun classifyZero dfW "pop" none 5 none (FieldsArg.boolArg true)
            (FieldsArg.boolArg true)).1 "pop")
          (i : ℚ)
          = [(getCells (choroRun classifyZero dfW "pop" none 5 none (FieldsArg.boolArg true)
              (FieldsArg.boolArg true)).1 "pop").getD i none])
    ∧ (∀ l, tooltipPopupFields (FieldsArg.boolArg true)
          (choroRun classifyZero dfW "pop" none 5 none (FieldsArg.boolArg true)
            (FieldsArg.boolArg true)).1 = some l →
        "__folium_key" ∉ l)) :=
  ⟨by decide, by decide, by decide, by decide,
   c9_folium_key_join classifyZero dfW "pop" none 5 none (FieldsArg.boolArg true)
     (FieldsArg.boolArg true) (by decide) (by decide) (by decide) (by decide)⟩

/-! ### Claim C1 -/

/-- C1: for every table and every externally supplied value vector passed as
`column` (lines 226-235): if the vector's length differs from the table's row
count the call raises the row-count-mismatch error; if the lengths match, the
vector is stored as the synthetic attribute `"__plottable_column"` of the
working copy (readable back unchanged), and — for a numeric vector — the rest
of the run is indistinguishable from passing a table that already holds the
synthetic column together with its name, i.e. downstream lookups treat the
vector like a named column. -/
theorem c1_external_vector_column (classify : List Cell → String → ℕ → List ℚ)
    (df : GeoDataFrame) (args : ViewArgs) (v : List Cell)
    (hcol : args.column = some (ColumnArg.vector v)) :
    (v.length ≠ nRows df →
      (view classify df args).result = Except.error ViewError.rowCountMismatch)
  ∧ (v.length = nRows df →
      resolveColumn (crsAdjust df) args.column args.categorical
        = Except.ok (setCol (crsAdjust df) "__plottable_column" v,
            some "__plottable_column", args.categorical)
      ∧ getCells (setCol (crsAdjust df) "__plottable_column" v) "__plottable_column" = v)
  ∧ (v.length = nRows df → inferDtype v = Dtype.numeric →
      (view classify df args).result
        = (view classify (setCol df "__plottable_column" v)
            { args with column := some (ColumnArg.name "__plottable_column") }).result) := by
  have hdf : Heap.get ⟨[df]⟩ 0 = df := rfl
  have hdf2 : Heap.get ⟨[setCol df "__plottable_column" v]⟩ 0
      = setCol df "__plottable_column" v := rfl
  refine ⟨?_, ?_, ?_⟩
  · intro h
    rw [show view classify df args = runView classify ⟨[df]⟩ 0 args from rfl,
      runView_result, hdf]
    unfold stage2Core
    rw [hcol]
    unfold resolveColumn
    dsimp only
    rw [if_pos (by rw [nRows_crsAdjust]; exact h)]
  · intro h
    constructor
    · rw [hcol]
      unfold resolveColumn
      dsimp only
      rw [if_neg (by rw [nRows_crsAdjust]; simp [h])]
    · exact getCells_setCol_self _ _ _
  · intro h hnum
    have hres1 : resolveColumn (crsAdjust df) (some (ColumnArg.vector v)) args.categorical
        = Except.ok (setCol (crsAdjust df) "__plottable_column" v,
            some "__plottable_column", args.categorical) := by
      unfold resolveColumn
      dsimp only
      rw [if_neg (by rw [nRows_crsAdjust]; simp [h])]
    have hres2 : resolveColumn (crsAdjust (setCol df "__plottable_column" v))
        (some (ColumnArg.name "__plottable_column")) args.categorical
        = Except.ok (crsAdjust (setCol df "__plottable_column" v),
            some "__plottable_column", args.categorical) := by
      unfold resolveColumn
      dsimp only
      rw [findCol_crsAdjust, findCol_setCol_self]
      dsimp only
      rw [hnum]
    have hcrseq : (Heap.get ⟨[setCol df "__plottable_column" v]⟩ 0).crs
        = (Heap.get ⟨[df]⟩ 0).crs := by
      rw [hdf, hdf2]
      exact crs_setCol df "__plottable_column" v
    rw [show view classify df args = runView classify ⟨[df]⟩ 0 args from rfl,
      show view classify (setCol df "__plottable_column" v)
          { args with column := some (ColumnArg.name "__plottable_column") }
        = runView classify ⟨[setCol df "__plottable_column" v]⟩ 0
            { args with column := some (ColumnArg.name "__plottable_column") } from rfl,
      runView_result, runView_result, hdf, hdf2]
    dsimp only
    rw [stage1_tiles, stage1_tiles, stage1_mapCrs, stage1_mapCrs,
      stage1_trace, stage1_trace, hcrseq, hdf]
    unfold stage2Core
    rw [hcol, hres1, hres2]
    rw [setCol_crsAdjust]

/-- C1 witness: a matching-length numeric vector on the two-row table. -/
theorem c1_witness :
    ({ args5 with column := some (ColumnArg.vector [some (Val.num 7), some (Val.num 8)]) }
        : ViewArgs).column
      = some (ColumnArg.vector [some (Val.num 7), some (Val.num 8)])
  ∧ (([some (Val.num 7), some (Val.num 8)] : List Cell).length ≠ nRows dfW →
      (view classifyZero dfW
        { args5 with column := some (ColumnArg.vector [some (Val.num 7), some (Val.num 8)]) }).result
        = Except.error ViewError.rowCountMismatch)
  ∧ (([some (Val.num 7), some (Val.num 8)] : List Cell).length = nRows dfW →
      resolveColumn (crsAdjust dfW)
        ({ args5 with column := some (ColumnArg.vector [some (Val.num 7), some (Val.num 8)]) }
          : ViewArgs).column
        ({ args5 with column := some (ColumnArg.vector [some (Val.num 7), some (Val.num 8)]) }
          : ViewArgs).categorical
        = Except.ok (setCol (crsAdjust dfW) "__plottable_column"
            [some (Val.num 7), some (Val.num 8)], some "__plottable_column",
            ({ args5 with column := some (ColumnArg.vector [some (Val.num 7), some (Val.num 8)]) }
              : ViewArgs).categorical)
      ∧ getCells (setCol (crsAdjust dfW) "__plottable_column"
          [some (Val.num 7), some (Val.num 8)]) "__plottable_column"
          = [some (Val.num 7), some (Val.num 8)])
  ∧ (([some (Val.num 7), some (Val.num 8)] : List Cell).length = nRows dfW →
      inferDtype [some (Val.num 7), some (Val.num 8)] = Dtype.numeric →
      (view classifyZero dfW
        { args5 with column := some (ColumnArg.vector [some (Val.num 7), some (Val.num 8)]) }).result
        = (view classifyZero (setCol dfW "__plottable_column" [some (Val.num 7), some (Val.num 8)])
            { { args5 with column := some (ColumnArg.vector [some (Val.num 7), some (Val.num 8)]) }
              with column := some (ColumnArg.name "__plottable_column") }).result) := by
  have hmain := c1_external_vector_column classifyZero dfW
    { args5 with column := some (ColumnArg.vector [some (Val.num 7), some (Val.num 8)]) }
    [some (Val.num 7), some (Val.num 8)] rfl
  exact ⟨rfl, hmain.1, hmain.2.1, hmain.2.2⟩

/-- Model fidelity at line 244's falsiness: the empty-string and empty-list
palettes (and `None`) all resolve to the default `"tab20"`, and categorical
runs with `cmap=""` or `cmap=[]` complete without error instead of raising. -/
theorem resolvedCmap_falsy_default :
    resolvedCmap (some (CmapArg.named "")) = CmapArg.named "tab20"
  ∧ resolvedCmap (some (CmapArg.clist [])) = CmapArg.named "tab20"
  ∧ resolvedCmap none = CmapArg.named "tab20"
  ∧ (view classifyZero df6 { args6 with cmap := some (CmapArg.named "") }).result.isOk
      = true
  ∧ (view classifyZero df6 { args6 with cmap := some (CmapArg.clist []) }).result.isOk
      = true :=
  ⟨by decide, by decide, by decide, by decide, by decide⟩
